import Mathlib

/-!
Verification of the MeinKPS pump command protocol layer
(`src/MeinKPS/Pump/commands.py`) against its natural-language
specification.

The Python classes are shallowly embedded: pure decode/encode methods
become Lean functions over lists of bytes (`Nat`) and hex-pair strings;
the radio environment of the phased ("big") commands is resolved by
passing each sub-command run's outcome (`Except PumpError Packet`)
explicitly. Helper modules of the repository that are not under `src/`
(`lib.py`, `errors.py`, `packets.py`) are modelled from the spec and are
marked as such in their doc comments.
-/

/-- Modelled from the spec: the error taxonomy of `errors.py` (spec §7),
which is not under `src/`. Constructor names follow the names used at the
raise sites of `commands.py` (`UnsuccessfulRadioCommand`, `NoPump`,
`HistoryPageBadCRC`); the spec calls these `UnsuccessfulCommand`,
`NoPumpResponse` and `HistoryPageBadCRC(expected, computed)`.
`indexError` models Python's `IndexError` on an out-of-range subscript. -/
inductive PumpError where
  | radioError
  | invalidPacket
  | unsuccessfulRadioCommand
  | noPump
  | invalidParameter
  | historyPageBadCRC (expected : Nat) (computed : Nat)
  | indexError
deriving DecidableEq, Repr

/-- Modelled from the spec: a decoded pump packet as produced by the
packet classes of `packets.py` (not under `src/`): an opcode held as a
hex-pair string and a payload held as a list of hex-pair strings, which
is how `commands.py` consumes `pkt.code` and `pkt.payload`
(e.g. `[pkt.code] + pkt.payload != ["06", "00"]`). -/
structure Packet where
  code : String
  payload : List String
deriving DecidableEq, Repr

/- ................... models of `lib.py` helpers ................... -/

/-- Modelled from the spec: `lib.pack(value, n)` packs an integer value
into `n` big-endian bytes (spec §6 "a register/timeout/delay value packed
into N big-endian bytes"). -/
def pack (value : Nat) (n : Nat) : List Nat :=
  (List.range n).map (fun i => value / 256 ^ (n - 1 - i) % 256)

/-- Modelled from the spec: `lib.unpack(bytes)` interprets a byte list as
a big-endian unsigned integer (spec §3 "the trailing 2 bytes interpreted
as big-endian uint16"). -/
def unpack (bytes : List Nat) : Nat :=
  bytes.foldl (fun acc b => acc * 256 + b) 0

/-- The sixteen uppercase hexadecimal digit characters. -/
def hexChars : List Char :=
  ['0', '1', '2', '3', '4', '5', '6', '7', '8', '9',
   'A', 'B', 'C', 'D', 'E', 'F']

/-- Value of one hexadecimal digit character. -/
def hexVal (c : Char) : Nat :=
  hexChars.indexOf c

/-- Python's `"{0:02X}".format(b)` for a byte value: two uppercase hex
digits (used throughout `commands.py` to build parameter blocks). -/
def hexByte (b : Nat) : String :=
  String.mk [hexChars.getD (b / 16 % 16) '0', hexChars.getD (b % 16) '0']

/-- Modelled from the spec: `lib.dehexify` on one hex-pair string —
"convert the concatenated hex-pair sequence into integer byte values"
(spec §4.3). -/
def hexPairToNat (s : String) : Nat :=
  match s.toList with
  | [a, b] => hexVal a * 16 + hexVal b
  | _ => 0

/-- Modelled from the spec: `lib.dehexify` converts a list of hex-pair
strings into the corresponding integer byte values (spec §4.3). -/
def dehexify (l : List String) : List Nat :=
  l.map hexPairToNat

/-- Modelled from the spec: `lib.withinRangeInt(x, [lo, hi], msg)` checks
a precondition on encode and fails with `InvalidParameter` when the value
lies outside the inclusive range (spec §7: "precondition violation on
encode ... fails immediately, never retried"). -/
def withinRangeInt (x lo hi : Int) : Except PumpError Unit :=
  if lo ≤ x ∧ x ≤ hi then Except.ok () else Except.error PumpError.invalidParameter

/-- Python's `int()` truncation toward zero, on an exact rational. -/
def pyInt (x : ℚ) : Int :=
  x.num / (x.den : Int)

/-- One shift step of the CRC16 register: shift left, conditionally xor
the polynomial `0x1021`, keep 16 bits. -/
def crc16Shift (c : Nat) : Nat :=
  if 0x8000 ≤ c then (c * 2) % 0x10000 ^^^ 0x1021 else (c * 2) % 0x10000

/-- Folding one byte into the CRC16 register: xor the byte into the high
8 bits, then run eight shift steps. -/
def crc16Byte (c b : Nat) : Nat :=
  crc16Shift^[8] (c ^^^ b % 256 * 256)

/-- Modelled from the spec: `lib.newComputeCRC16` — "a ... 16-bit running
checksum function with seed 0xFFFF, polynomial 0x1021, no input/output
reflection, matching bytes individually" (spec §4.4). -/
def newComputeCRC16 (bytes : List Nat) : Nat :=
  bytes.foldl crc16Byte 0xFFFF

/- ................... command configuration constants ................... -/

/-- The per-big-command repeat counters `self.repeat` for the "Init"
(prelude), "ACK" (postlude) and "NAK" (retry) sub-commands. -/
structure RepeatCounts where
  init : Nat
  ack : Nat
  nak : Nat
deriving DecidableEq, Repr

/-- `PumpBigCommand.__init__`: `self.repeat = {"Init": 1, "ACK": 0, "NAK": 0}`. -/
def pumpBigCommandRepeat : RepeatCounts :=
  { init := 1, ack := 0, nak := 0 }

/-- `PumpGetBigCommand.__init__`: inherits `PumpBigCommand`'s counters and
sets `self.repeat["NAK"] = 10`. -/
def pumpGetBigCommandRepeat : RepeatCounts :=
  { pumpBigCommandRepeat with nak := 10 }

/-- `ReadPumpHistoryPage.__init__`: inherits `PumpGetBigCommand`'s counters
and sets `self.repeat["ACK"] = 15` (the "Init" count is left at the
inherited value). -/
def readPumpHistoryPageRepeat : RepeatCounts :=
  { pumpGetBigCommandRepeat with ack := 15 }

/-- `PowerPump.__init__`: inherits `PumpBigCommand`'s counters and sets
`self.repeat["Init"] = 50`. -/
def powerPumpRepeat : RepeatCounts :=
  { pumpBigCommandRepeat with init := 50 }

/-- `DeliverPumpBolus.__init__`: inherits `PumpBigCommand`'s counters
unchanged (it only binds its "Init" sub-command). -/
def deliverPumpBolusRepeat : RepeatCounts :=
  pumpBigCommandRepeat

/- ................... decode functions ................... -/

/-- `PumpSetCommand.decode`: take the last received packet; the command
is successful exactly when `[pkt.code] + pkt.payload == ["06", "00"]`,
otherwise `UnsuccessfulRadioCommand` is raised. Subscripting `[-1]` on an
empty received list would raise Python's `IndexError`. -/
def pumpSetDecode (rx : List Packet) : Except PumpError Unit :=
  match rx.getLast? with
  | none => Except.error PumpError.indexError
  | some pkt =>
      if [pkt.code] ++ pkt.payload = ["06", "00"] then Except.ok ()
      else Except.error PumpError.unsuccessfulRadioCommand

/-- `PumpGetBigCommand.decode`: drop the first `repeat["Init"]` received
packets (the prelude packets), flatten the remaining packets' payloads in
receive order, dehexify, and return the byte list together with its
length. (`lib.flatten` is modelled from the spec as list concatenation.) -/
def pumpGetBigDecode (initRepeat : Nat) (rx : List Packet) : List Nat × Nat :=
  let payload := dehexify (((rx.drop initRepeat).map Packet.payload).flatten)
  (payload, payload.length)

/-- `ReadPumpHistorySize.decode`: the page count is `payload[3] + 1`,
capped at 36 (`min(payload[3] + 1, 36)`); subscripting a too-short payload
would raise Python's `IndexError`. -/
def readPumpHistorySizeDecode (payload : List Nat) : Except PumpError Nat :=
  match payload.get? 3 with
  | none => Except.error PumpError.indexError
  | some b => Except.ok (min (b + 1) 36)

/-- `ReadPumpHistoryPage.crc`: unpack the last two payload bytes as the
expected CRC, compute CRC16 over the rest, and raise
`HistoryPageBadCRC(expected, computed)` on mismatch. -/
def historyPageCRC (payload : List Nat) : Except PumpError Unit :=
  let expected := unpack (payload.drop (payload.length - 2))
  let computed := newComputeCRC16 (payload.take (payload.length - 2))
  if computed ≠ expected then
    Except.error (PumpError.historyPageBadCRC expected computed)
  else Except.ok ()

/-- `ReadPumpHistoryPage.decode`: check the page CRC, then return the
payload with the trailing two CRC bytes stripped (`payload[:-2]`). -/
def readPumpHistoryPageDecode (payload : List Nat) : Except PumpError (List Nat) :=
  match historyPageCRC payload with
  | Except.error e => Except.error e
  | Except.ok _ => Except.ok (payload.take (payload.length - 2))

/- ................... phased ("big") command execution ................... -/

/-- The outcome of running one sub-command (`Init`, `ACK` or `NAK`) or of
the command core, as observed by the enclosing phase: either the response
packet appended to the sub-command's received list, or the error its run
raised. The radio environment is resolved by passing these outcomes
explicitly. -/
abbrev RunOutcome := Except PumpError Packet

/-- Whether an outcome is one of the two recoverable errors caught by the
`except (errors.RadioError, errors.InvalidPacket)` clauses of
`commands.py`. -/
def transientErr (o : RunOutcome) : Prop :=
  o = Except.error PumpError.radioError ∨ o = Except.error PumpError.invalidPacket

/-- How many sub-command runs a first-success loop (`PumpBigCommand.retry`,
`PowerPump.prelude`) performs on a given outcome sequence: it stops at the
first success, skips past recoverable errors, and stops at the first
non-recoverable error (which propagates out of the loop). -/
def subRunsUsed : List RunOutcome → Nat
  | [] => 0
  | Except.ok _ :: _ => 1
  | Except.error PumpError.radioError :: rest => subRunsUsed rest + 1
  | Except.error PumpError.invalidPacket :: rest => subRunsUsed rest + 1
  | Except.error _ :: _ => 1

/-- `PumpBigCommand.retry`: run the bound "NAK" sub-command once per loop
iteration (`for i in range(self.repeat["NAK"])`, so `attempts` lists the
outcomes of the at most `repeat["NAK"]` runs). The first success appends
that run's response packet to the received list and exits; `RadioError`
and `InvalidPacket` are swallowed and the loop continues; exhausting all
attempts raises `UnsuccessfulRadioCommand`. Any other error from a run is
not caught and propagates. -/
def pumpBigRetry : List RunOutcome → List Packet → Except PumpError (List Packet)
  | [], _ => Except.error PumpError.unsuccessfulRadioCommand
  | Except.ok p :: _, rx => Except.ok (rx ++ [p])
  | Except.error PumpError.radioError :: rest, rx => pumpBigRetry rest rx
  | Except.error PumpError.invalidPacket :: rest, rx => pumpBigRetry rest rx
  | Except.error e :: _, _ => Except.error e

/-- `PumpBigCommand.prelude`: run the bound "Init" sub-command
`repeat["Init"]` times (`initOuts` lists those runs' outcomes), appending
each run's response packet to the received list. There is no
`try/except`: any error a run raises propagates immediately. -/
def pumpBigPrelude : List RunOutcome → List Packet → Except PumpError (List Packet)
  | [], rx => Except.ok rx
  | Except.ok p :: rest, rx => pumpBigPrelude rest (rx ++ [p])
  | Except.error e :: _, _ => Except.error e

/-- `PumpBigCommand.execute`: run the command core (send + receive, whose
outcome is `core`); on `RadioError` or `InvalidPacket`, if the NAK repeat
count is non-zero, fall into `retry` (with `naks` the outcomes of its NAK
runs), otherwise re-raise. Other errors propagate. -/
def pumpBigExecute (core : RunOutcome) (nakRepeat : Nat) (naks : List RunOutcome)
    (rx : List Packet) : Except PumpError (List Packet) :=
  match core with
  | Except.ok p => Except.ok (rx ++ [p])
  | Except.error PumpError.radioError =>
      if nakRepeat ≠ 0 then pumpBigRetry naks rx else Except.error PumpError.radioError
  | Except.error PumpError.invalidPacket =>
      if nakRepeat ≠ 0 then pumpBigRetry naks rx else Except.error PumpError.invalidPacket
  | Except.error e => Except.error e

/-- `PumpBigCommand.postlude`: run the bound "ACK" sub-command
`repeat["ACK"]` times; each step carries its ACK run's outcome and, should
that outcome be recoverable, the outcomes of the NAK runs a `retry` call
would make. A successful ACK run appends its response packet; a
recoverable error falls into `retry` when the NAK repeat count is
non-zero (continuing the ACK loop on retry success) and is re-raised
otherwise; other errors propagate. -/
def pumpBigPostlude (nakRepeat : Nat) :
    List (RunOutcome × List RunOutcome) → List Packet → Except PumpError (List Packet)
  | [], rx => Except.ok rx
  | (ack, naks) :: rest, rx =>
      match ack with
      | Except.ok p => pumpBigPostlude nakRepeat rest (rx ++ [p])
      | Except.error PumpError.radioError =>
          if nakRepeat ≠ 0 then
            match pumpBigRetry naks rx with
            | Except.ok rx2 => pumpBigPostlude nakRepeat rest rx2
            | Except.error e => Except.error e
          else Except.error PumpError.radioError
      | Except.error PumpError.invalidPacket =>
          if nakRepeat ≠ 0 then
            match pumpBigRetry naks rx with
            | Except.ok rx2 => pumpBigPostlude nakRepeat rest rx2
            | Except.error e => Except.error e
          else Except.error PumpError.invalidPacket
      | Except.error e => Except.error e

/-- `PumpBigCommand.run` up to the end of the postlude: prelude, then
core execute, then postlude, threading the received-packet list (reset to
`[]`) and propagating the first uncaught error. -/
def pumpBigRun (initOuts : List RunOutcome) (core : RunOutcome)
    (coreNaks : List RunOutcome) (ackSteps : List (RunOutcome × List RunOutcome))
    (nakRepeat : Nat) : Except PumpError (List Packet) :=
  match pumpBigPrelude initOuts [] with
  | Except.error e => Except.error e
  | Except.ok rx1 =>
      match pumpBigExecute core nakRepeat coreNaks rx1 with
      | Except.error e => Except.error e
      | Except.ok rx2 => pumpBigPostlude nakRepeat ackSteps rx2

/-- `PowerPump.prelude` (overriding the base prelude): run the bound
"Init" sub-command up to `repeat["Init"]` times; the first success exits
immediately (without storing the packet), `RadioError` and
`InvalidPacket` are swallowed, any other error propagates, and exhausting
every attempt raises `NoPump`. -/
def powerPumpPrelude : List RunOutcome → Except PumpError Unit
  | [] => Except.error PumpError.noPump
  | Except.ok _ :: _ => Except.ok ()
  | Except.error PumpError.radioError :: rest => powerPumpPrelude rest
  | Except.error PumpError.invalidPacket :: rest => powerPumpPrelude rest
  | Except.error e :: _ => Except.error e

/- ................... encode functions ................... -/

/-- `DeliverPumpBolus.encode(bolus)`: convert the bolus to internal units
via `int(bolus * 10)`, check it lies within `[0, 250]` (else
`InvalidParameter`), and build the 65-byte parameter block
`["01"] + 64 * ["00"]` with index 1 set to the hex pair of the internal
units. -/
def deliverPumpBolusEncode (bolus : ℚ) : Except PumpError (List String) :=
  let b := pyInt (bolus * 10)
  match withinRangeInt b 0 250 with
  | Except.error e => Except.error e
  | Except.ok _ => Except.ok ((["01"] ++ List.replicate 64 "00").set 1 (hexByte b.toNat))

/-- `DeliverPumpBolus.run(bolus)` (the `PumpBigCommand.run` sequence with
`PumpSetCommand.decode`): reset, encode, prelude, core execute, postlude
(vacuous: `repeat["ACK"] = 0`), decode. An encode failure raises before
the prelude runs, so the result does not depend on any radio outcome. -/
def deliverPumpBolusRun (bolus : ℚ) (initOuts : List RunOutcome) (core : RunOutcome)
    (coreNaks : List RunOutcome) : Except PumpError (List Packet) :=
  match deliverPumpBolusEncode bolus with
  | Except.error e => Except.error e
  | Except.ok _ =>
      match pumpBigRun initOuts core coreNaks [] deliverPumpBolusRepeat.nak with
      | Except.error e => Except.error e
      | Except.ok rx =>
          match pumpSetDecode rx with
          | Except.error e => Except.error e
          | Except.ok _ => Except.ok rx

/-- The slice of `WriteReadStickRadio.encode`'s stored state that the
protocol contract constrains. -/
structure WriteReadStickRadioEnc where
  dataTX : List Nat
  stickTimeout : Nat
  radioTimeout : List Nat
  retry : Nat
  repeatCount : Nat
  delay : List Nat
  channelTX : Nat
  channelRX : Nat
deriving DecidableEq, Repr

/-- `WriteReadStickRadio.encode(data, timeout, retry, repeat, delay,
channelTX, channelRX)`: stores the stick-side timeout
`(retry + 1) * timeout + 500`, the radio per-attempt timeout packed into
4 big-endian bytes, and the remaining fields verbatim. -/
def writeReadStickRadioEncode (data : List Nat) (timeout retry repeatCount delay
    channelTX channelRX : Nat) : WriteReadStickRadioEnc :=
  { dataTX := data
    stickTimeout := (retry + 1) * timeout + 500
    radioTimeout := pack timeout 4
    retry := retry
    repeatCount := repeatCount
    delay := pack delay 4
    channelTX := channelTX
    channelRX := channelRX }

/-- A concrete "ACK, no error" status packet, used as sample data. -/
def ackPacket : Packet :=
  { code := "06", payload := ["00"] }

/- ................... helper lemmas ................... -/

lemma deliverPumpBolusEncode_eq (bolus : ℚ) :
    deliverPumpBolusEncode bolus =
      if 0 ≤ pyInt (bolus * 10) ∧ pyInt (bolus * 10) ≤ 250 then
        Except.ok ((["01"] ++ List.replicate 64 "00").set 1
          (hexByte (pyInt (bolus * 10)).toNat))
      else Except.error PumpError.invalidParameter := by
  unfold deliverPumpBolusEncode withinRangeInt
  by_cases h : 0 ≤ pyInt (bolus * 10) ∧ pyInt (bolus * 10) ≤ 250 <;> simp [h]

/- ................... claim theorems ................... -/

/-- C1: for every pump set command, after the core exchange completes
(the received-packet list has a last packet), decode succeeds if and only
if that packet's opcode and payload together equal the two-byte sequence
(0x06, 0x00) — the hex pairs "06", "00" — and any other value raises
`UnsuccessfulCommand` (`UnsuccessfulRadioCommand` in the source). -/
theorem pumpSetCommand_decode_ack_iff :
    ∀ (rx : List Packet) (pkt : Packet), rx.getLast? = some pkt →
      (pumpSetDecode rx = Except.ok () ↔ [pkt.code] ++ pkt.payload = ["06", "00"]) ∧
      ([pkt.code] ++ pkt.payload ≠ ["06", "00"] →
        pumpSetDecode rx = Except.error PumpError.unsuccessfulRadioCommand) := by
  intro rx pkt h
  unfold pumpSetDecode
  rw [h]
  by_cases hc : [pkt.code] ++ pkt.payload = ["06", "00"] <;> simp [hc]

/-- Witness for C1 at the concrete received list `[⟨"06", ["00"]⟩]`. -/
theorem pumpSetCommand_decode_ack_iff_witness :
    ([Packet.mk "06" ["00"]] : List Packet).getLast? = some (Packet.mk "06" ["00"]) ∧
      ((pumpSetDecode [Packet.mk "06" ["00"]] = Except.ok () ↔
        [(Packet.mk "06" ["00"]).code] ++ (Packet.mk "06" ["00"]).payload = ["06", "00"]) ∧
      ([(Packet.mk "06" ["00"]).code] ++ (Packet.mk "06" ["00"]).payload ≠ ["06", "00"] →
        pumpSetDecode [Packet.mk "06" ["00"]] =
          Except.error PumpError.unsuccessfulRadioCommand)) :=
  ⟨rfl, pumpSetCommand_decode_ack_iff [Packet.mk "06" ["00"]] (Packet.mk "06" ["00"]) rfl⟩

/-- C9: `WriteReadStickRadio.encode` sets the total stick-side read
timeout to exactly `(retry + 1) * timeout + 500` milliseconds, which is
strictly greater than the sum `(retry + 1) * timeout` of all low-level
retry attempts' individual timeouts. -/
theorem writeReadStickRadio_encode_stickTimeout :
    ∀ (data : List Nat) (t r rep dly cTX cRX : Nat),
      (writeReadStickRadioEncode data t r rep dly cTX cRX).stickTimeout
        = (r + 1) * t + 500 ∧
      (r + 1) * t < (writeReadStickRadioEncode data t r rep dly cTX cRX).stickTimeout := by
  intro data t r rep dly cTX cRX
  refine ⟨rfl, ?_⟩
  show (r + 1) * t < (r + 1) * t + 500
  omega

/-- C10: `ReadPumpHistorySize.decode` returns `min(payload[3] + 1, 36)`
for every payload long enough to be subscripted at index 3, and the
result never exceeds 36. -/
theorem readPumpHistorySize_decode_min :
    ∀ (payload : List Nat) (b : Nat), payload.get? 3 = some b →
      readPumpHistorySizeDecode payload = Except.ok (min (b + 1) 36) ∧
      min (b + 1) 36 ≤ 36 := by
  intro p b h
  unfold readPumpHistorySizeDecode
  rw [h]
  exact ⟨rfl, min_le_right _ _⟩

/-- Witness for C10 at the concrete payload `[0, 0, 0, 40]` (the pump
reports 40, decode caps the count at 36). -/
theorem readPumpHistorySize_decode_min_witness :
    ([0, 0, 0, 40] : List Nat).get? 3 = some 40 ∧
      (readPumpHistorySizeDecode [0, 0, 0, 40] = Except.ok (min (40 + 1) 36) ∧
        min (40 + 1) 36 ≤ 36) :=
  ⟨rfl, readPumpHistorySize_decode_min [0, 0, 0, 40] 40 rfl⟩

lemma subRunsUsed_le_length : ∀ (outs : List RunOutcome), subRunsUsed outs ≤ outs.length := by
  intro outs
  induction outs with
  | nil => simp [subRunsUsed]
  | cons o rest ih =>
    cases o with
    | ok p => simp [subRunsUsed]
    | error e =>
      cases e <;> simp [subRunsUsed] <;> omega

lemma subRunsUsed_first_ok : ∀ (l1 : List RunOutcome) (p : Packet) (l2 : List RunOutcome),
    (∀ o ∈ l1, transientErr o) →
    subRunsUsed (l1 ++ Except.ok p :: l2) = l1.length + 1 := by
  intro l1
  induction l1 with
  | nil => intro p l2 _; simp [subRunsUsed]
  | cons o rest ih =>
    intro p l2 h
    have ho : transientErr o := h o (List.mem_cons_self o rest)
    have hrest : ∀ o' ∈ rest, transientErr o' :=
      fun o' ho' => h o' (List.mem_cons_of_mem o ho')
    rcases ho with h1 | h1 <;> subst h1 <;>
      simp [subRunsUsed, ih p l2 hrest]

lemma subRunsUsed_all_transient : ∀ (outs : List RunOutcome),
    (∀ o ∈ outs, transientErr o) → subRunsUsed outs = outs.length := by
  intro outs
  induction outs with
  | nil => intro _; rfl
  | cons o rest ih =>
    intro h
    have ho : transientErr o := h o (List.mem_cons_self o rest)
    have hrest : ∀ o' ∈ rest, transientErr o' :=
      fun o' ho' => h o' (List.mem_cons_of_mem o ho')
    rcases ho with h1 | h1 <;> subst h1 <;> simp [subRunsUsed, ih hrest]

lemma pumpBigRetry_first_ok : ∀ (l1 : List RunOutcome) (p : Packet) (l2 : List RunOutcome)
    (rx : List Packet), (∀ o ∈ l1, transientErr o) →
    pumpBigRetry (l1 ++ Except.ok p :: l2) rx = Except.ok (rx ++ [p]) := by
  intro l1
  induction l1 with
  | nil => intro p l2 rx _; rfl
  | cons o rest ih =>
    intro p l2 rx h
    have ho : transientErr o := h o (List.mem_cons_self o rest)
    have hrest : ∀ o' ∈ rest, transientErr o' :=
      fun o' ho' => h o' (List.mem_cons_of_mem o ho')
    rcases ho with h1 | h1 <;> subst h1 <;> simp [pumpBigRetry, ih p l2 rx hrest]

lemma pumpBigRetry_all_transient : ∀ (outs : List RunOutcome) (rx : List Packet),
    (∀ o ∈ outs, transientErr o) →
    pumpBigRetry outs rx = Except.error PumpError.unsuccessfulRadioCommand := by
  intro outs
  induction outs with
  | nil => intro rx _; rfl
  | cons o rest ih =>
    intro rx h
    have ho : transientErr o := h o (List.mem_cons_self o rest)
    have hrest : ∀ o' ∈ rest, transientErr o' :=
      fun o' ho' => h o' (List.mem_cons_of_mem o ho')
    rcases ho with h1 | h1 <;> subst h1 <;> simp [pumpBigRetry, ih rx hrest]

lemma powerPumpPrelude_first_ok : ∀ (l1 : List RunOutcome) (p : Packet)
    (l2 : List RunOutcome), (∀ o ∈ l1, transientErr o) →
    powerPumpPrelude (l1 ++ Except.ok p :: l2) = Except.ok () := by
  intro l1
  induction l1 with
  | nil => intro p l2 _; rfl
  | cons o rest ih =>
    intro p l2 h
    have ho : transientErr o := h o (List.mem_cons_self o rest)
    have hrest : ∀ o' ∈ rest, transientErr o' :=
      fun o' ho' => h o' (List.mem_cons_of_mem o ho')
    rcases ho with h1 | h1 <;> subst h1 <;> simp [powerPumpPrelude, ih p l2 hrest]

lemma powerPumpPrelude_all_transient : ∀ (outs : List RunOutcome),
    (∀ o ∈ outs, transientErr o) →
    powerPumpPrelude outs = Except.error PumpError.noPump := by
  intro outs
  induction outs with
  | nil => intro _; rfl
  | cons o rest ih =>
    intro h
    have ho : transientErr o := h o (List.mem_cons_self o rest)
    have hrest : ∀ o' ∈ rest, transientErr o' :=
      fun o' ho' => h o' (List.mem_cons_of_mem o ho')
    rcases ho with h1 | h1 <;> subst h1 <;> simp [powerPumpPrelude, ih hrest]

/-- C2: with NAK retry budget `n > 0` (the outcome list `outs` holds the
`n` per-attempt NAK run outcomes), the retry sub-protocol runs the NAK
sub-command at most `n` times, swallows `RadioError` and `InvalidPacket`
between attempts, ends at the first successful attempt — appending that
attempt's response packet to the received-packet sequence after making
exactly `l1.length + 1` attempts — and raises `UnsuccessfulCommand`
(`UnsuccessfulRadioCommand`) after all `n` attempts fail, making no
further attempts. -/
theorem pumpBigCommand_retry_spec :
    ∀ (n : Nat) (outs : List RunOutcome) (rx : List Packet),
      outs.length = n → 0 < n →
      subRunsUsed outs ≤ n ∧
      (∀ (l1 : List RunOutcome) (p : Packet) (l2 : List RunOutcome),
        outs = l1 ++ Except.ok p :: l2 → (∀ o ∈ l1, transientErr o) →
        pumpBigRetry outs rx = Except.ok (rx ++ [p]) ∧
        subRunsUsed outs = l1.length + 1 ∧ l1.length + 1 ≤ n) ∧
      ((∀ o ∈ outs, transientErr o) →
        pumpBigRetry outs rx = Except.error PumpError.unsuccessfulRadioCommand ∧
        subRunsUsed outs = n) := by
  intro n outs rx hlen _
  subst hlen
  refine ⟨subRunsUsed_le_length outs, ?_, ?_⟩
  · intro l1 p l2 hsplit h1
    subst hsplit
    refine ⟨pumpBigRetry_first_ok l1 p l2 rx h1, subRunsUsed_first_ok l1 p l2 h1, ?_⟩
    simp
  · intro h
    exact ⟨pumpBigRetry_all_transient outs rx h, subRunsUsed_all_transient outs h⟩

/-- Witness for C2: budget 2, first NAK attempt fails with `RadioError`,
second succeeds; the response packet is appended and two attempts are
made. -/
theorem pumpBigCommand_retry_spec_witness :
    ([Except.error PumpError.radioError, Except.ok ackPacket] : List RunOutcome).length = 2 ∧
    (0 : Nat) < 2 ∧
    pumpBigRetry [Except.error PumpError.radioError, Except.ok ackPacket] []
      = Except.ok ([] ++ [ackPacket]) ∧
    subRunsUsed [Except.error PumpError.radioError, Except.ok ackPacket] = 1 + 1 :=
  have h := (pumpBigCommand_retry_spec 2
    [Except.error PumpError.radioError, Except.ok ackPacket] [] rfl (by omega)).2.1
    [Except.error PumpError.radioError] ackPacket [] rfl
    (by intro o ho; simp at ho; subst ho; exact Or.inl rfl)
  ⟨rfl, by omega, h.1, h.2.1⟩

/-- C6: `PowerPump`'s prelude is configured with `repeat["Init"] = 50`
and runs its bound `Init` sub-command on the 50 per-attempt outcomes,
swallowing `RadioError` and `InvalidPacket` between attempts; it stops at
the first successful attempt, and if all 50 attempts fail it raises
`NoPumpResponse` (`NoPump` in the source). -/
theorem powerPump_prelude_spec :
    ∀ (outs : List RunOutcome), outs.length = powerPumpRepeat.init →
      powerPumpRepeat.init = 50 ∧
      subRunsUsed outs ≤ 50 ∧
      (∀ (l1 : List RunOutcome) (p : Packet) (l2 : List RunOutcome),
        outs = l1 ++ Except.ok p :: l2 → (∀ o ∈ l1, transientErr o) →
        powerPumpPrelude outs = Except.ok () ∧ subRunsUsed outs = l1.length + 1) ∧
      ((∀ o ∈ outs, transientErr o) →
        powerPumpPrelude outs = Except.error PumpError.noPump) := by
  intro outs hlen
  have h50 : powerPumpRepeat.init = 50 := rfl
  rw [h50] at hlen
  refine ⟨h50, hlen ▸ subRunsUsed_le_length outs, ?_, ?_⟩
  · intro l1 p l2 hsplit h1
    subst hsplit
    exact ⟨powerPumpPrelude_first_ok l1 p l2 h1, subRunsUsed_first_ok l1 p l2 h1⟩
  · intro h
    exact powerPumpPrelude_all_transient outs h

/-- Witness for C6: the first `Init` attempt succeeds at once (followed
by 49 unused outcome slots), so the prelude exits successfully after one
run. -/
theorem powerPump_prelude_spec_witness :
    (Except.ok ackPacket :: List.replicate 49 (Except.error PumpError.radioError)
      : List RunOutcome).length = powerPumpRepeat.init ∧
    powerPumpPrelude
      (Except.ok ackPacket :: List.replicate 49 (Except.error PumpError.radioError))
      = Except.ok () :=
  have hlen : (Except.ok ackPacket ::
      List.replicate 49 (Except.error PumpError.radioError)
        : List RunOutcome).length = powerPumpRepeat.init := by
    simp [powerPumpRepeat, pumpBigCommandRepeat]
  ⟨hlen, ((powerPump_prelude_spec _ hlen).2.2.1 [] ackPacket
    (List.replicate 49 (Except.error PumpError.radioError)) rfl (by intro o ho; simp at ho)).1⟩

/-- C7 counterexample: take a big command with NAK retry budget 10
configured (as `PumpGetBigCommand` does); a `RadioError` raised during
the prelude phase propagates directly to the caller instead of being
converted into NAK retry-loop iterations — `PumpBigCommand.prelude` has
no `try/except` at all. -/
theorem pumpBigCommand_prelude_error_counterexample :
    pumpBigRun [Except.error PumpError.radioError] (Except.ok ackPacket) [] [] 10 =
      Except.error PumpError.radioError := rfl

/-- C7 (amended): with a non-zero NAK retry budget, a transient
`RadioError` or `InvalidPacket` raised during the core execute or during
a postlude step is caught locally and converted into NAK retry-loop
iterations (the phase continues according to the retry result); a
transient error raised during the base prelude, by contrast, propagates
directly to the caller. -/
theorem pumpBigCommand_transient_error_policy :
    ∀ (n : Nat) (naks : List RunOutcome) (rx : List Packet) (o : RunOutcome),
      n ≠ 0 → transientErr o →
      pumpBigExecute o n naks rx = pumpBigRetry naks rx ∧
      (∀ (rest : List (RunOutcome × List RunOutcome)) (rx2 : List Packet),
        pumpBigRetry naks rx = Except.ok rx2 →
        pumpBigPostlude n ((o, naks) :: rest) rx = pumpBigPostlude n rest rx2) ∧
      (∀ (rest : List (RunOutcome × List RunOutcome)) (e : PumpError),
        pumpBigRetry naks rx = Except.error e →
        pumpBigPostlude n ((o, naks) :: rest) rx = Except.error e) ∧
      (∀ (e : PumpError) (restOuts : List RunOutcome), o = Except.error e →
        pumpBigPrelude (o :: restOuts) rx = Except.error e) := by
  intro n naks rx o hn ht
  rcases ht with h1 | h1 <;> subst h1 <;>
    refine ⟨by simp [pumpBigExecute, hn],
      fun rest rx2 hr => by simp [pumpBigPostlude, hn, hr],
      fun rest e hr => by simp [pumpBigPostlude, hn, hr],
      fun e restOuts he => by obtain rfl := Except.error.inj he; rfl⟩

/-- Witness for C7 (amended) at budget 10: a core `RadioError` with one
successful NAK attempt available is handled by the retry sub-protocol. -/
theorem pumpBigCommand_transient_error_policy_witness :
    (10 : Nat) ≠ 0 ∧ transientErr (Except.error PumpError.radioError) ∧
    pumpBigExecute (Except.error PumpError.radioError) 10 [Except.ok ackPacket] [] =
      pumpBigRetry [Except.ok ackPacket] [] :=
  ⟨by omega, Or.inl rfl,
    (pumpBigCommand_transient_error_policy 10 [Except.ok ackPacket] []
      (Except.error PumpError.radioError) (by omega) (Or.inl rfl)).1⟩

/-- C8 counterexample: the history page reader is *not* configured with a
prelude ("Init") repeat count of 0 — the count inherited from
`PumpBigCommand.__init__` is 1 and `ReadPumpHistoryPage.__init__` leaves
it unchanged. -/
theorem readPumpHistoryPage_repeat_counterexample :
    ¬ (readPumpHistoryPageRepeat.init = 0 ∧ readPumpHistoryPageRepeat.ack = 15) := by
  intro h
  exact absurd h.1 (by decide)

/-- C8 (amended): the history page reader command is configured with a
prelude ("Init") repeat count of 1 (inherited from `PumpBigCommand`) and
a postlude ("ACK") repeat count of 15, so its decode-visible packet
sequence skips exactly the one leading prelude packet produced by the
configured counts. -/
theorem readPumpHistoryPage_repeat_spec :
    readPumpHistoryPageRepeat.init = 1 ∧ readPumpHistoryPageRepeat.ack = 15 ∧
    ∀ (pkt : Packet) (rx : List Packet),
      pumpGetBigDecode readPumpHistoryPageRepeat.init (pkt :: rx) =
        pumpGetBigDecode 0 rx := by
  refine ⟨rfl, rfl, ?_⟩
  intro pkt rx
  rfl

/-- C5: for every multi-chunk pump get command with prelude repeat count
`p`, decode produces exactly the concatenation, in receive order, of the
payloads of the received packets after skipping the first `p` prelude
packets, converted from hex pairs to integer byte values, together with
the length of that concatenated byte sequence. -/
theorem pumpGetBigCommand_decode_concat :
    ∀ (p : Nat) (rx : List Packet),
      pumpGetBigDecode p rx =
        (((rx.drop p).map (fun pkt => dehexify pkt.payload)).flatten,
         ((rx.drop p).map (fun pkt => dehexify pkt.payload)).flatten.length) := by
  intro p rx
  have h1 : (pumpGetBigDecode p rx).1 =
      ((rx.drop p).map (fun pkt => dehexify pkt.payload)).flatten := by
    unfold pumpGetBigDecode dehexify
    simp [List.map_flatten, List.map_map]
    rfl
  have h2 : (pumpGetBigDecode p rx).2 = (pumpGetBigDecode p rx).1.length := rfl
  rw [Prod.ext_iff]
  exact ⟨h1, by rw [h2, h1]⟩

lemma unpack_two (hi lo : Nat) : unpack [hi, lo] = 256 * hi + lo := by
  simp [unpack]
  ring

/-- C4: for a reassembled history page payload `d ++ [hi, lo]`,
`ReadPumpHistoryPage.decode` strips the trailing two CRC bytes and
returns `d` exactly when the CRC16 over `d` equals the trailing two bytes
unpacked big-endian (`hi * 256 + lo`), and otherwise raises
`HistoryPageBadCRC` carrying the expected and the computed value. -/
theorem readPumpHistoryPage_decode_crc :
    ∀ (d : List Nat) (hi lo : Nat),
      (newComputeCRC16 d = 256 * hi + lo →
        readPumpHistoryPageDecode (d ++ [hi, lo]) = Except.ok d) ∧
      (newComputeCRC16 d ≠ 256 * hi + lo →
        readPumpHistoryPageDecode (d ++ [hi, lo]) =
          Except.error (PumpError.historyPageBadCRC (256 * hi + lo)
            (newComputeCRC16 d))) := by
  intro d hi lo
  have hlen : (d ++ [hi, lo]).length - 2 = d.length := by simp
  have htake : (d ++ [hi, lo]).take ((d ++ [hi, lo]).length - 2) = d := by
    rw [hlen]
    exact List.take_left d [hi, lo]
  have hdrop : (d ++ [hi, lo]).drop ((d ++ [hi, lo]).length - 2) = [hi, lo] := by
    rw [hlen]
    exact List.drop_left d [hi, lo]
  unfold readPumpHistoryPageDecode historyPageCRC
  rw [htake, hdrop, unpack_two]
  constructor
  · intro h
    simp [h]
  · intro h
    simp [h]

/-- Witness for C4: the two-byte page `[1, 2]` has CRC16 `0x0E7C`
(`256 * 14 + 124`); with matching trailer bytes, decode strips them. -/
theorem readPumpHistoryPage_decode_crc_witness :
    newComputeCRC16 [1, 2] = 256 * 14 + 124 ∧
    readPumpHistoryPageDecode ([1, 2] ++ [14, 124]) = Except.ok [1, 2] :=
  ⟨by decide, (readPumpHistoryPage_decode_crc [1, 2] 14 124).1 (by decide)⟩

lemma pyInt_bolus25 : pyInt ((5/2 : ℚ) * 10) = 25 := by
  have h2 : (5/2 : ℚ) * 10 = 25 := by norm_num
  rw [pyInt, h2]
  simp

lemma pyInt_bolus26 : pyInt ((26 : ℚ) * 10) = 260 := by
  have h2 : (26 : ℚ) * 10 = 260 := by norm_num
  rw [pyInt, h2]
  simp

/-- C3: `DeliverPumpBolus.encode` converts the requested bolus to
internal units via `int(bolus * 10)`; for `bolus = 2.5` it produces the
65-element parameter block `["01", "19"]` followed by 63 `"00"` bytes,
and for any bolus whose internal units fall outside `[0, 250]` (such as
`bolus = 26`) the whole run raises `InvalidParameter` regardless of every
radio outcome — i.e. immediately, before anything is transmitted. -/
theorem deliverPumpBolus_encode_spec :
    deliverPumpBolusEncode (5/2 : ℚ)
      = Except.ok (["01", "19"] ++ List.replicate 63 "00") ∧
    (["01", "19"] ++ List.replicate 63 "00" : List String).length = 65 ∧
    deliverPumpBolusEncode (26 : ℚ) = Except.error PumpError.invalidParameter ∧
    (∀ (bolus : ℚ), (pyInt (bolus * 10) < 0 ∨ 250 < pyInt (bolus * 10)) →
      ∀ (initOuts : List RunOutcome) (core : RunOutcome) (coreNaks : List RunOutcome),
        deliverPumpBolusRun bolus initOuts core coreNaks
          = Except.error PumpError.invalidParameter) := by
  refine ⟨?_, by decide, ?_, ?_⟩
  · have hl : (["01"] ++ List.replicate 64 "00").set 1 (hexByte ((25 : Int)).toNat)
        = ["01", "19"] ++ List.replicate 63 "00" := by decide
    rw [deliverPumpBolusEncode_eq, pyInt_bolus25, if_pos (by norm_num), hl]
  · rw [deliverPumpBolusEncode_eq, pyInt_bolus26, if_neg (by omega)]
  · intro bolus hb initOuts core coreNaks
    have he : deliverPumpBolusEncode bolus = Except.error PumpError.invalidParameter := by
      rw [deliverPumpBolusEncode_eq, if_neg (by omega)]
    unfold deliverPumpBolusRun
    rw [he]

/-- Witness for C3 at `bolus = 26` (internal units 260 > 250): the run
fails with `InvalidParameter` for a concrete choice of radio outcomes. -/
theorem deliverPumpBolus_encode_spec_witness :
    (pyInt ((26 : ℚ) * 10) < 0 ∨ 250 < pyInt ((26 : ℚ) * 10)) ∧
    deliverPumpBolusRun 26 [] (Except.ok ackPacket) []
      = Except.error PumpError.invalidParameter :=
  have hb : pyInt ((26 : ℚ) * 10) < 0 ∨ 250 < pyInt ((26 : ℚ) * 10) :=
    Or.inr (by rw [pyInt_bolus26]; omega)
  ⟨hb, deliverPumpBolus_encode_spec.2.2.2 26 hb [] (Except.ok ackPacket) []⟩
